import Mathlib

/-!
Verification of the rocket_container aggregation core against its
natural-language specification.  The Rust sources under src/ are embedded
shallowly: u32 values become Nat (u32 string parsing checks the 2 ^ 32
bound), fallible code returns Except, and code paths that can panic
(Option::unwrap / Result::unwrap) are modelled with an explicit panicked
outcome.
-/

namespace RocketContainer

/-! ## Core types (src/types.rs) -/

/-- Kind of an internal error: permanent errors are never retried while
transient errors are retried by the client (src/types.rs, ErrorKind). -/
inductive ErrorKind where
  | Permanent
  | Transient
  deriving DecidableEq

/-- Internal error type (src/types.rs, Error): a kind plus a message. -/
structure Error where
  kind : ErrorKind
  message : String
  deriving DecidableEq

/-- Crate-wide result alias (src/types.rs): Result of T and Error. -/
abbrev Result (α : Type) : Type := Except Error α

/-- Outcome of running Rust code that may return a value, return an Err,
or panic.  The panicked outcome models Option::unwrap on None and
Result::unwrap on Err, which abort instead of returning. -/
inductive PResult (α : Type) where
  | ok (value : α)
  | err (error : Error)
  | panicked
  deriving DecidableEq

/-- Decimal value of an ASCII digit, or none for any other character. -/
def digit? (c : Char) : Option Nat :=
  if 48 ≤ c.toNat ∧ c.toNat ≤ 57 then some (c.toNat - 48) else none

/-- Accumulate the decimal value of a digit sequence; none on the first
non-digit character. -/
def charsToNat : List Char → Nat → Option Nat
  | [], acc => some acc
  | c :: cs, acc =>
    match digit? c with
    | some d => charsToNat cs (acc * 10 + d)
    | none => none

/-- Model of str::parse for u32: succeeds exactly on nonempty digit
strings whose value fits in 32 bits.  (Rust also accepts a leading plus
sign; nothing in the claims depends on that corner.) -/
def parseU32 (s : String) : Option Nat :=
  match s.data with
  | [] => none
  | cs =>
    match charsToNat cs 0 with
    | some n => if n < 2 ^ 32 then some n else none
    | none => none

/-- Type of asset an AssetReference links to (src/types.rs, AssetType). -/
inductive AssetType where
  | Ad
  | Image
  deriving DecidableEq

/-- Type of a video (src/types.rs, VideoType). -/
inductive VideoType where
  | Clip
  | Episode
  | Movie
  deriving DecidableEq

/-! ## Grouping (src/service/mod.rs)

The Rust group function folds an iterator of key/value pairs into a
HashMap of key to Vec of values.  The HashMap is modelled as an
association list in first-insertion order; only lookup results matter to
the claims, and those are independent of bucket order. -/

/-- Lookup in an association list, as HashMap::get. -/
def alistGet {K V : Type} [DecidableEq K] (m : List (K × V)) (k : K) : Option V :=
  match m with
  | [] => none
  | (k2, v) :: rest => if k2 = k then some v else alistGet rest k

/-- One step of group: entry(key).or_insert_with(Vec::new).push(value). -/
def groupInsert {K V : Type} [DecidableEq K] (m : List (K × List V)) (k : K) (v : V) :
    List (K × List V) :=
  match m with
  | [] => [(k, [v])]
  | (k2, vs) :: rest =>
    if k2 = k then (k2, vs ++ [v]) :: rest else (k2, vs) :: groupInsert rest k v

/-- Embedding of group (src/service/mod.rs lines 11-29): fold the pairs
into a map, appending each value to the bucket of its key.  The capacity
hints in the source only pre-size the map and do not affect contents. -/
def group {K V : Type} [DecidableEq K] (pairs : List (K × V)) : List (K × List V) :=
  pairs.foldl (fun m p => groupInsert m p.1 p.2) []

/-- Values associated with a key, in arrival order. -/
def groupList {K V : Type} [DecidableEq K] (pairs : List (K × V)) (k : K) : List V :=
  (pairs.filter (fun p => decide (p.1 = k))).map Prod.snd

theorem alistGet_groupInsert {K V : Type} [DecidableEq K]
    (m : List (K × List V)) (k k2 : K) (v : V) :
    alistGet (groupInsert m k v) k2 =
      if k2 = k then some ((alistGet m k).getD [] ++ [v]) else alistGet m k2 := by
  induction m with
  | nil =>
    by_cases h : k2 = k
    · simp [groupInsert, alistGet, h]
    · have h2 : ¬ k = k2 := fun hh => h hh.symm
      simp [groupInsert, alistGet, h, h2]
  | cons p rest ih =>
    obtain ⟨ka, vs⟩ := p
    by_cases hka : ka = k
    · subst hka
      by_cases h2 : k2 = ka
      · subst h2
        simp [groupInsert, alistGet]
      · have h3 : ¬ ka = k2 := fun hh => h2 hh.symm
        simp [groupInsert, alistGet, h2, h3]
    · by_cases h2 : ka = k2
      · subst h2
        simp [groupInsert, alistGet, hka]
      · simp [groupInsert, alistGet, hka, h2, ih]

theorem alistGet_group_aux {K V : Type} [DecidableEq K]
    (pairs : List (K × V)) (m : List (K × List V)) (k : K) :
    alistGet (pairs.foldl (fun m p => groupInsert m p.1 p.2) m) k =
      match alistGet m k with
      | some vs => some (vs ++ groupList pairs k)
      | none =>
        if pairs.any (fun p => decide (p.1 = k)) then some (groupList pairs k) else none := by
  induction pairs generalizing m with
  | nil =>
    cases h : alistGet m k <;> simp [groupList, h]
  | cons p rest ih =>
    obtain ⟨kp, vp⟩ := p
    rw [List.foldl_cons, ih]
    rw [alistGet_groupInsert]
    by_cases hk : k = kp
    · subst hk
      cases h : alistGet m k <;>
        simp [groupList, List.filter_cons, h]
    · have hk2 : ¬ kp = k := fun hh => hk hh.symm
      have hd : (decide (kp = k)) = false := decide_eq_false hk2
      cases h : alistGet m k with
      | some vs => simp [groupList, List.filter_cons, hk, hk2, hd, h]
      | none =>
        simp [groupList, List.filter_cons, hk, hk2, hd, h]
        rw [hd, Bool.false_or]

/-- C8: group maps every key occurring in the input to the list of all
values paired with that key in arrival order (duplicates preserved), and
contains no other keys. -/
theorem group_spec {K V : Type} [DecidableEq K] (pairs : List (K × V)) (k : K) :
    alistGet (group pairs) k =
      if pairs.any (fun p => decide (p.1 = k))
      then some ((pairs.filter (fun p => decide (p.1 = k))).map Prod.snd)
      else none := by
  have h := alistGet_group_aux pairs [] k
  simpa [group, alistGet, groupList] using h

/-! ## Retrying HTTP client (src/repository/client.rs)

The network is modelled by the outcome each attempt would observe: an
operation is a function from the 1-indexed attempt number to the Result
that attempt produces, and the jitter is a function from the attempt
number after which a backoff is computed to the value that
thread_rng().gen_range(0..100) returned there. -/

/-- MAX_ATTEMPTS constant (src/repository/client.rs line 15). -/
def MAX_ATTEMPTS : Nat := 10

/-- MAX_BACKOFF constant in milliseconds (src/repository/client.rs line 18). -/
def MAX_BACKOFF : Nat := 1000

/-- Embedding of Client::get_backoff (src/repository/client.rs lines
108-115): min of 2 to the (attempt - 1) plus the random millis, and
MAX_BACKOFF.  The random draw is passed explicitly. -/
def getBackoff (attempt : Nat) (randomMillis : Nat) : Nat :=
  min (2 ^ (attempt - 1) + randomMillis) MAX_BACKOFF

/-- Observable behaviour of one Client::retry run: the returned Result,
how many times the operation was invoked, and the backoff delays slept in
order (the delay at list index j is the one before attempt j + 2). -/
structure RetryTrace (α : Type) where
  result : Result α
  calls : Nat
  delays : List Nat

/-- Loop of Client::retry (src/repository/client.rs lines 126-152).  The
for loop runs attempt numbers 1 to MAX_ATTEMPTS - 1; fuel counts the loop
iterations left, and fuel 0 is the final call after the loop.  Ok returns
at once, a Permanent error returns at once, and a Transient error sleeps
getBackoff of the current attempt number before the next round. -/
def retryGo {α : Type} (f : Nat → Result α) (rng : Nat → Nat) : Nat → Nat → RetryTrace α
  | i, 0 => ⟨f i, 1, []⟩
  | i, fuel + 1 =>
    match f i with
    | .ok a => ⟨.ok a, 1, []⟩
    | .error e =>
      if e.kind = ErrorKind.Permanent then ⟨.error e, 1, []⟩
      else
        let rest := retryGo f rng (i + 1) fuel
        ⟨rest.result, rest.calls + 1, getBackoff i (rng i) :: rest.delays⟩

/-- Embedding of Client::retry: attempts start at 1 and the for loop makes
MAX_ATTEMPTS - 1 iterations before the final call outside the loop. -/
def retry {α : Type} (f : Nat → Result α) (rng : Nat → Nat) : RetryTrace α :=
  retryGo f rng 1 (MAX_ATTEMPTS - 1)

/-- C6: an operation failing with a Transient error on every attempt is
invoked exactly MAX_ATTEMPTS (10) times, and retry returns the error of
the final (10th) attempt unchanged rather than a synthesized one. -/
theorem retry_transient_exhaustion {α : Type} (f : Nat → Result α) (rng : Nat → Nat)
    (e : Nat → Error) (hf : ∀ n, f n = Except.error (e n))
    (hk : ∀ n, (e n).kind = ErrorKind.Transient) :
    (retry f rng).calls = MAX_ATTEMPTS ∧
      (retry f rng).result = Except.error (e MAX_ATTEMPTS) := by
  simp [retry, retryGo, MAX_ATTEMPTS, hf, hk]

/-- Closed instance of the transient-exhaustion theorem at a concrete
always-transient operation. -/
theorem retry_transient_exhaustion_witness :
    (retry (fun _ => (Except.error ⟨ErrorKind.Transient, "Internal server error"⟩ : Result Nat))
        (fun _ => 0)).calls = MAX_ATTEMPTS ∧
      (retry (fun _ => (Except.error ⟨ErrorKind.Transient, "Internal server error"⟩ : Result Nat))
        (fun _ => 0)).result =
        Except.error ⟨ErrorKind.Transient, "Internal server error"⟩ :=
  retry_transient_exhaustion
    (fun _ => Except.error ⟨ErrorKind.Transient, "Internal server error"⟩) (fun _ => 0)
    (fun _ => ⟨ErrorKind.Transient, "Internal server error"⟩) (fun _ => rfl) (fun _ => rfl)

theorem retry_transient_delays {α : Type} (f : Nat → Result α) (rng : Nat → Nat)
    (e : Nat → Error) (hf : ∀ n, f n = Except.error (e n))
    (hk : ∀ n, (e n).kind = ErrorKind.Transient) :
    (retry f rng).delays =
      (List.range' 1 (MAX_ATTEMPTS - 1)).map (fun i => getBackoff i (rng i)) := by
  simp [retry, retryGo, MAX_ATTEMPTS, hf, hk, List.range']

theorem getBackoff_interval (a r : Nat) (ha : 1 ≤ a) (ha9 : a ≤ 9) (hr : r < 100) :
    2 ^ (a - 1) ≤ getBackoff a r ∧ getBackoff a r ≤ 2 ^ (a - 1) + 100 := by
  have h8 : a - 1 ≤ 8 := by omega
  have hpow : 2 ^ (a - 1) ≤ 256 := by
    calc 2 ^ (a - 1) ≤ 2 ^ 8 := Nat.pow_le_pow_right (by norm_num) h8
      _ = 256 := by norm_num
  have hlt : 2 ^ (a - 1) + r ≤ 1000 := by omega
  simp only [getBackoff, MAX_BACKOFF, min_eq_left hlt]
  omega

/-- C4 amended: in an always-transient run with jitter below 100, the
delay slept before attempt i (2 ≤ i ≤ MAX_ATTEMPTS) is
getBackoff (i - 1) (rng (i - 1)), which lies in the closed interval from
2 ^ (i - 2) to 2 ^ (i - 2) + 100; and no computed backoff ever exceeds
MAX_BACKOFF = 1000, while attempt 1 is issued without any delay. -/
theorem backoff_bounds {α : Type} (f : Nat → Result α) (rng : Nat → Nat)
    (e : Nat → Error) (i : Nat)
    (hf : ∀ n, f n = Except.error (e n)) (hk : ∀ n, (e n).kind = ErrorKind.Transient)
    (hrng : ∀ n, rng n < 100) (h2 : 2 ≤ i) (h10 : i ≤ MAX_ATTEMPTS) :
    (retry f rng).delays[i - 2]? = some (getBackoff (i - 1) (rng (i - 1)))
  ∧ 2 ^ (i - 2) ≤ getBackoff (i - 1) (rng (i - 1))
  ∧ getBackoff (i - 1) (rng (i - 1)) ≤ 2 ^ (i - 2) + 100
  ∧ (∀ a r, getBackoff a r ≤ MAX_BACKOFF) := by
  have hd := retry_transient_delays f rng e hf hk
  have h10 : i ≤ 10 := h10
  have hiv := getBackoff_interval (i - 1) (rng (i - 1)) (by omega) (by omega) (hrng (i - 1))
  have hexp : i - 1 - 1 = i - 2 := by omega
  rw [hexp] at hiv
  refine ⟨?_, hiv.1, hiv.2, fun a r => min_le_right _ _⟩
  rw [hd]
  interval_cases i <;> simp [MAX_ATTEMPTS, List.range']

/-- Closed instance of the amended backoff theorem at attempt index 4. -/
theorem backoff_bounds_witness :
    (retry (fun _ => (Except.error ⟨ErrorKind.Transient, "Internal server error"⟩ : Result Nat))
        (fun _ => 7)).delays[2]? = some (getBackoff 3 7)
  ∧ 2 ^ 2 ≤ getBackoff 3 7
  ∧ getBackoff 3 7 ≤ 2 ^ 2 + 100
  ∧ (∀ a r, getBackoff a r ≤ MAX_BACKOFF) :=
  backoff_bounds
    (fun _ => Except.error ⟨ErrorKind.Transient, "Internal server error"⟩) (fun _ => 7)
    (fun _ => ⟨ErrorKind.Transient, "Internal server error"⟩) 4
    (fun _ => rfl) (fun _ => rfl) (fun _ => by norm_num) (by norm_num) (by norm_num [MAX_ATTEMPTS])

/-- C4 counterexample: with an always-transient operation and zero jitter
the delay slept before attempt 2 is min (2 ^ 0 + 0) 1000 = 1 millisecond,
strictly below the lower bound 2 ^ (2 - 1) = 2 that the claim asserts for
attempt index 2. -/
theorem backoff_claim_counterexample :
    (retry (fun _ => (Except.error ⟨ErrorKind.Transient, "Internal server error"⟩ : Result Nat))
        (fun _ => 0)).delays[0]? = some 1
  ∧ 1 < 2 ^ (2 - 1) := by
  constructor
  · rfl
  · norm_num

/-! ## HTTP outcome classification (Client::send and Client::get) -/

/-- Outcome of one attempted HTTP GET as seen by Client::send: a response
with a status code and raw body, or a transport-level failure carrying the
reqwest error message. -/
inductive HttpOutcome where
  | response (status : Nat) (body : String)
  | transportFailure (message : String)

/-- Embedding of Client::send (src/repository/client.rs lines 164-191):
status 200 passes the response through, 404 is a Permanent not-found
error, 500 a Transient internal-server error, any other status a
Permanent unexpected error, and a transport failure a Permanent error
with the transport message. -/
def send (outcome : HttpOutcome) : Result String :=
  match outcome with
  | .response status body =>
    if status = 200 then Except.ok body
    else if status = 404 then Except.error ⟨ErrorKind.Permanent, "Resource not found"⟩
    else if status = 500 then Except.error ⟨ErrorKind.Transient, "Internal server error"⟩
    else Except.error ⟨ErrorKind.Permanent, "Unexpected error"⟩
  | .transportFailure message => Except.error ⟨ErrorKind.Permanent, message⟩

/-- The exact serde message of a decode failure is abstracted; only its
Permanent kind matters to the claims. -/
def decodeFailMessage : String := "error decoding response body"

/-- Body of the closure inside Client::get (src/repository/client.rs lines
81-99): send the request, then decode the 200 body, turning a decode
failure into a Permanent error. -/
def getOnce {T : Type} (decode : String → Option T) (outcome : HttpOutcome) : Result T :=
  match send outcome with
  | .error e => .error e
  | .ok body =>
    match decode body with
    | some value => .ok value
    | none => .error ⟨ErrorKind.Permanent, decodeFailMessage⟩

/-- C7: classification of every response outcome by the fetch primitive
(200 decodes the body, 404 Permanent, 500 Transient, any other status or a
transport failure Permanent, decode failure of a 200 body Permanent), and
a Permanent error on attempt 1 is returned after exactly one invocation. -/
theorem client_classification {T : Type} (decode : String → Option T)
    (body badBody tmsg : String) (status : Nat) (value : T) (e : Error)
    (f : Nat → Result T) (rng : Nat → Nat)
    (hs : status ≠ 200 ∧ status ≠ 404 ∧ status ≠ 500)
    (hdec : decode body = some value) (hbad : decode badBody = none)
    (hf : f 1 = Except.error e) (he : e.kind = ErrorKind.Permanent) :
    getOnce decode (HttpOutcome.response 200 body) = Except.ok value
  ∧ getOnce decode (HttpOutcome.response 404 body) =
      Except.error ⟨ErrorKind.Permanent, "Resource not found"⟩
  ∧ getOnce decode (HttpOutcome.response 500 body) =
      Except.error ⟨ErrorKind.Transient, "Internal server error"⟩
  ∧ getOnce decode (HttpOutcome.response status body) =
      Except.error ⟨ErrorKind.Permanent, "Unexpected error"⟩
  ∧ getOnce decode (HttpOutcome.transportFailure tmsg) =
      Except.error ⟨ErrorKind.Permanent, tmsg⟩
  ∧ getOnce decode (HttpOutcome.response 200 badBody) =
      Except.error ⟨ErrorKind.Permanent, decodeFailMessage⟩
  ∧ (retry f rng).calls = 1 ∧ (retry f rng).result = Except.error e := by
  obtain ⟨hs200, hs404, hs500⟩ := hs
  refine ⟨?_, ?_, ?_, ?_, ?_, ?_, ?_, ?_⟩
  · simp [getOnce, send, hdec]
  · simp [getOnce, send]
  · simp [getOnce, send]
  · simp [getOnce, send, hs200, hs404, hs500]
  · simp [getOnce, send]
  · simp [getOnce, send, hbad]
  · simp [retry, retryGo, MAX_ATTEMPTS, hf, he]
  · simp [retry, retryGo, MAX_ATTEMPTS, hf, he]

/-- Closed instance of the classification theorem at a concrete decoder,
status 403 and a Permanent first-attempt failure. -/
theorem client_classification_witness :
    getOnce (fun s => if s = "good" then some 0 else none) (HttpOutcome.response 200 "good") =
      Except.ok 0
  ∧ getOnce (fun s => if s = "good" then some 0 else none) (HttpOutcome.response 404 "good") =
      Except.error ⟨ErrorKind.Permanent, "Resource not found"⟩
  ∧ getOnce (fun s => if s = "good" then some 0 else none) (HttpOutcome.response 500 "good") =
      Except.error ⟨ErrorKind.Transient, "Internal server error"⟩
  ∧ getOnce (fun s => if s = "good" then some 0 else none) (HttpOutcome.response 403 "good") =
      Except.error ⟨ErrorKind.Permanent, "Unexpected error"⟩
  ∧ getOnce (fun s => if s = "good" then some 0 else none)
      (HttpOutcome.transportFailure "connection refused") =
      Except.error ⟨ErrorKind.Permanent, "connection refused"⟩
  ∧ getOnce (fun s => if s = "good" then some 0 else none) (HttpOutcome.response 200 "bad") =
      Except.error ⟨ErrorKind.Permanent, decodeFailMessage⟩
  ∧ (retry (fun _ => (Except.error ⟨ErrorKind.Permanent, "Resource not found"⟩ : Result Nat))
      (fun _ => 0)).calls = 1
  ∧ (retry (fun _ => (Except.error ⟨ErrorKind.Permanent, "Resource not found"⟩ : Result Nat))
      (fun _ => 0)).result = Except.error ⟨ErrorKind.Permanent, "Resource not found"⟩ :=
  client_classification (fun s => if s = "good" then some 0 else none)
    "good" "bad" "connection refused" 403 0 ⟨ErrorKind.Permanent, "Resource not found"⟩
    (fun _ => Except.error ⟨ErrorKind.Permanent, "Resource not found"⟩) (fun _ => 0)
    (by norm_num) (by decide) (by decide) rfl rfl

/-! ## Raw records (src/repository) and domain records (src/service)

All wire identifiers are numeric-looking strings; the conversions to the
domain form call str::parse followed by Option-like unwrap, so a
conversion whose parse fails panics.  Panic is modelled by none. -/

/-- AdvertisementDto (src/repository/advertisement.rs lines 43-53). -/
structure AdvertisementDto where
  container_id : String
  id : String
  name : String
  url : String
  deriving DecidableEq

/-- Advertisement domain record (src/service/advertisement.rs). -/
structure Advertisement where
  id : Nat
  name : String
  url : String
  deriving DecidableEq

/-- Embedding of the From AdvertisementDto impl for Advertisement
(src/repository/advertisement.rs lines 63-72): id.parse().unwrap(); the
unwrap panics (none) when the id string does not parse as u32. -/
def Advertisement.fromDto (dto : AdvertisementDto) : Option Advertisement :=
  match parseU32 dto.id with
  | some n => some ⟨n, dto.name, dto.url⟩
  | none => none

/-- ImageDto (src/repository/image.rs lines 48-57). -/
structure ImageDto where
  container_id : String
  id : String
  name : String
  url : String
  deriving DecidableEq

/-- Image domain record (src/service/image.rs). -/
structure Image where
  id : Nat
  name : String
  url : String
  deriving DecidableEq

/-- Embedding of the From ImageDto impl for Image
(src/repository/image.rs lines 66-71). -/
def Image.fromDto (dto : ImageDto) : Option Image :=
  match parseU32 dto.id with
  | some n => some ⟨n, dto.name, dto.url⟩
  | none => none

/-- AssetReferenceDto (src/repository/video.rs): asset_id and video_id
are strings, asset_type is already an enum after deserialization. -/
structure AssetReferenceDto where
  asset_id : String
  asset_type : AssetType
  video_id : String
  deriving DecidableEq

/-- AssetReference domain record (src/service/video.rs lines 37-42). -/
structure AssetReference where
  asset_id : Nat
  asset_type : AssetType
  deriving DecidableEq

/-- Embedding of the From AssetReferenceDto impl for AssetReference
(src/repository/video.rs lines 78-91): asset_id.parse().unwrap(). -/
def AssetReference.fromDto (dto : AssetReferenceDto) : Option AssetReference :=
  match parseU32 dto.asset_id with
  | some n => some ⟨n, dto.asset_type⟩
  | none => none

/-- VideoDto (src/repository/video.rs): all string fields plus the video
type enum. -/
structure VideoDto where
  container_id : String
  description : String
  expiration_date : String
  id : String
  playback_url : String
  title : String
  type : VideoType
  deriving DecidableEq

/-- Video domain record (src/service/video.rs lines 88-103). -/
structure Video where
  assets : List AssetReference
  description : String
  expiration_date : String
  id : Nat
  playback_url : String
  title : String
  type : VideoType
  deriving DecidableEq

/-! ## VideoBuilder (src/service/video.rs lines 186-355) -/

/-- VideoBuilder: id is required, assets start empty, and the other five
fields start as None and are filled by setters. -/
structure VideoBuilder where
  assets : List AssetReference
  description : Option String
  expiration_date : Option String
  id : Nat
  playback_url : Option String
  title : Option String
  type : Option VideoType
  deriving DecidableEq

/-- Embedding of VideoBuilder::new (src/service/video.rs lines 224-234). -/
def VideoBuilder.new (id : Nat) : VideoBuilder :=
  ⟨[], none, none, id, none, none, none⟩

/-- Embedding of VideoBuilder::build (src/service/video.rs lines
245-255): unwrap of the five optional fields; none models the panic of
unwrap on an unset field. -/
def VideoBuilder.build (b : VideoBuilder) : Option Video :=
  match b.description, b.expiration_date, b.playback_url, b.title, b.type with
  | some d, some ed, some pu, some t, some ty => some ⟨b.assets, d, ed, b.id, pu, t, ty⟩
  | _, _, _, _, _ => none

/-- Embedding of VideoBuilder::build_clone (src/service/video.rs lines
265-275): same unwraps on cloned fields (cloning is identity here). -/
def VideoBuilder.build_clone (b : VideoBuilder) : Option Video :=
  match b.description, b.expiration_date, b.playback_url, b.title, b.type with
  | some d, some ed, some pu, some t, some ty => some ⟨b.assets, d, ed, b.id, pu, t, ty⟩
  | _, _, _, _, _ => none

/-- Setter VideoBuilder::assets. -/
def VideoBuilder.setAssets (b : VideoBuilder) (assets : List AssetReference) : VideoBuilder :=
  { b with assets := assets }

/-- Setter VideoBuilder::description. -/
def VideoBuilder.setDescription (b : VideoBuilder) (d : String) : VideoBuilder :=
  { b with description := some d }

/-- Setter VideoBuilder::expiration_date. -/
def VideoBuilder.setExpirationDate (b : VideoBuilder) (ed : String) : VideoBuilder :=
  { b with expiration_date := some ed }

/-- Setter VideoBuilder::playback_url. -/
def VideoBuilder.setPlaybackUrl (b : VideoBuilder) (pu : String) : VideoBuilder :=
  { b with playback_url := some pu }

/-- Setter VideoBuilder::title. -/
def VideoBuilder.setTitle (b : VideoBuilder) (t : String) : VideoBuilder :=
  { b with title := some t }

/-- Setter VideoBuilder::type. -/
def VideoBuilder.setType (b : VideoBuilder) (ty : VideoType) : VideoBuilder :=
  { b with type := some ty }

/-- Embedding of the From VideoDto impl for VideoBuilder
(src/repository/video.rs lines 173-187): Video::builder on the parsed id
(unwrap panics on a bad id) followed by the five setters. -/
def VideoBuilder.fromDto (dto : VideoDto) : Option VideoBuilder :=
  match parseU32 dto.id with
  | some n =>
    some ((((((VideoBuilder.new n).setDescription dto.description).setExpirationDate
      dto.expiration_date).setPlaybackUrl dto.playback_url).setTitle
      dto.title).setType dto.type)
  | none => none

/-- Pair construction inside AdvertisementService::list_advertisements
(src/service/advertisement.rs lines 92-108): the grouping key is
container_id.parse().unwrap() and the value is Advertisement::from. -/
def advertisementDtoToPair (dto : AdvertisementDto) : Option (Nat × Advertisement) :=
  match parseU32 dto.container_id with
  | some key =>
    match Advertisement.fromDto dto with
    | some ad => some (key, ad)
    | none => none
  | none => none

/-- C5 counterexample: an advertisement DTO whose id is the non-numeric
string x makes the conversion panic (modelled none) instead of always
yielding a domain value as the claim states. -/
theorem dto_conversion_counterexample :
    Advertisement.fromDto ⟨"0", "x", "A", "http://x"⟩ = none := by decide

/-- C5 amended: each raw-to-domain conversion is pure and deterministic
but partial, not total: it yields a domain value exactly when the id (and
the containerId used as grouping key) parses as u32, and the unwrap
panics otherwise. -/
theorem dto_conversion_iff_parse (a : AdvertisementDto) (im : ImageDto)
    (ar : AssetReferenceDto) (v : VideoDto) :
    ((Advertisement.fromDto a).isSome ↔ (parseU32 a.id).isSome)
  ∧ ((Image.fromDto im).isSome ↔ (parseU32 im.id).isSome)
  ∧ ((AssetReference.fromDto ar).isSome ↔ (parseU32 ar.asset_id).isSome)
  ∧ ((VideoBuilder.fromDto v).isSome ↔ (parseU32 v.id).isSome)
  ∧ ((advertisementDtoToPair a).isSome ↔
      ((parseU32 a.container_id).isSome ∧ (parseU32 a.id).isSome)) := by
  refine ⟨?_, ?_, ?_, ?_, ?_⟩
  · cases h : parseU32 a.id <;> simp [Advertisement.fromDto, h]
  · cases h : parseU32 im.id <;> simp [Image.fromDto, h]
  · cases h : parseU32 ar.asset_id <;> simp [AssetReference.fromDto, h]
  · cases h : parseU32 v.id <;> simp [VideoBuilder.fromDto, h]
  · cases hc : parseU32 a.container_id <;>
      cases h : parseU32 a.id <;>
        simp [advertisementDtoToPair, Advertisement.fromDto, hc, h]

/-- C10: build and build_clone return a Video exactly when all five
optional fields have been set, a fresh builder has them all unset (so
both constructors panic on it), and a builder obtained from a VideoDto
whose id parses always builds successfully. -/
theorem video_builder_requires_all_fields (b : VideoBuilder) (i : Nat) (dto : VideoDto) (n : Nat)
    (hdto : parseU32 dto.id = some n) :
    (b.build.isSome ↔ (b.description.isSome ∧ b.expiration_date.isSome ∧
        b.playback_url.isSome ∧ b.title.isSome ∧ b.type.isSome))
  ∧ b.build_clone = b.build
  ∧ (VideoBuilder.new i).build = none
  ∧ (VideoBuilder.new i).build_clone = none
  ∧ (∃ vb, VideoBuilder.fromDto dto = some vb ∧ vb.build.isSome) := by
  obtain ⟨assets, d, ed, vid, pu, t, ty⟩ := b
  refine ⟨?_, ?_, rfl, rfl, ?_⟩
  · cases d <;> cases ed <;> cases pu <;> cases t <;> cases ty <;>
      simp [VideoBuilder.build]
  · cases d <;> cases ed <;> cases pu <;> cases t <;> cases ty <;>
      simp [VideoBuilder.build, VideoBuilder.build_clone]
  · simp only [VideoBuilder.fromDto, hdto]
    refine ⟨_, rfl, ?_⟩
    simp [VideoBuilder.new, VideoBuilder.setDescription, VideoBuilder.setExpirationDate,
      VideoBuilder.setPlaybackUrl, VideoBuilder.setTitle, VideoBuilder.setType,
      VideoBuilder.build]

/-- Closed instance of the builder partiality theorem at a fresh builder
and a concrete DTO. -/
theorem video_builder_requires_all_fields_witness :
    ((VideoBuilder.new 3).build.isSome ↔ ((VideoBuilder.new 3).description.isSome ∧
        (VideoBuilder.new 3).expiration_date.isSome ∧
        (VideoBuilder.new 3).playback_url.isSome ∧ (VideoBuilder.new 3).title.isSome ∧
        (VideoBuilder.new 3).type.isSome))
  ∧ (VideoBuilder.new 3).build_clone = (VideoBuilder.new 3).build
  ∧ (VideoBuilder.new 3).build = none
  ∧ (VideoBuilder.new 3).build_clone = none
  ∧ (∃ vb, VideoBuilder.fromDto ⟨"5", "d", "", "100", "p", "t", VideoType.Clip⟩ = some vb
      ∧ vb.build.isSome) :=
  video_builder_requires_all_fields (VideoBuilder.new 3) 3 ⟨"5", "d", "", "100", "p", "t", VideoType.Clip⟩
    100 (by decide)

/-! ## Container and assembly (src/service/container.rs) -/

/-- Container aggregate (src/service/container.rs lines 30-37), fields in
source order. -/
structure Container where
  ads : List Advertisement
  id : Nat
  images : List Image
  title : String
  videos : List Video
  deriving DecidableEq

/-- Embedding of Container::from (src/service/container.rs lines 58-84).
The title comes from the format string container-{}{}${}_videos applied to
the container id, the ads suffix and the images suffix; note the literal
dollar sign the source format string carries between the two suffixes. -/
def Container.fromParts (container_id : Nat) (advertisements : List Advertisement)
    (images : List Image) (videos : List Video) : Container :=
  let title_ads : String := if advertisements.isEmpty then "" else "_ads"
  let title_images : String := if images.isEmpty then "" else "_images"
  let title : String :=
    "container-" ++ toString container_id ++ title_ads ++ "$" ++ title_images ++ "_videos"
  ⟨advertisements, container_id, images, title, videos⟩

/-- C3: at container id 5 with one advertisement, no images and one video
the code produces the title container-5_ads$_videos (the literal dollar
sign of the source format string), which differs from the
container-5_ads_videos the specification requires. -/
theorem container_title_dollar_bug :
    (Container.fromParts 5 [⟨9, "A", "http://x"⟩] []
        [⟨[], "d", "", 100, "p", "t", VideoType.Clip⟩]).title = "container-5_ads$_videos"
  ∧ (Container.fromParts 5 [⟨9, "A", "http://x"⟩] []
        [⟨[], "d", "", 100, "p", "t", VideoType.Clip⟩]).title ≠ "container-5_ads_videos" := by
  refine ⟨by decide, by decide⟩

/-- Map aliases (src/service): HashMap of container id to values,
modelled as association lists. -/
abbrev AdvertisementMap : Type := List (Nat × List Advertisement)

/-- ImageMap alias. -/
abbrev ImageMap : Type := List (Nat × List Image)

/-- VideoMap alias. -/
abbrev VideoMap : Type := List (Nat × List Video)

/-- Embedding of ContainerService::build_container
(src/service/container.rs lines 219-239): look the container id up in the
advertisement and image maps, defaulting to the empty list when absent,
and pair with the given video list. -/
def build_container (advertisements : AdvertisementMap) (images : ImageMap)
    (container_id : Nat) (videos : List Video) : Container :=
  Container.fromParts container_id
    ((alistGet advertisements container_id).getD [])
    ((alistGet images container_id).getD []) videos

/-- Pure assembly step of ContainerService::list_containers
(src/service/container.rs lines 189-194): one Container per entry of the
video map, in video-map order. -/
def listContainersFromMaps (advertisements : AdvertisementMap) (images : ImageMap)
    (videos : VideoMap) : List Container :=
  videos.map (fun p => build_container advertisements images p.1 p.2)

/-- C9: the catalog assembly builds exactly one Container per container id
of the video group, in order; ids missing from the advertisement or image
group get empty ads/images lists via the defaulting match rather than an
error; and a container id absent from the video group never yields a
Container. -/
theorem assemble_all_structure (advertisements : AdvertisementMap) (images : ImageMap)
    (videos : VideoMap) (i k : Nat) (c : Container)
    (hk : k ∉ videos.map Prod.fst)
    (hc : c ∈ listContainersFromMaps advertisements images videos) :
    (listContainersFromMaps advertisements images videos).map Container.id =
      videos.map Prod.fst
  ∧ ((listContainersFromMaps advertisements images videos)[i]?).map Container.ads =
      (videos[i]?).map (fun p => (alistGet advertisements p.1).getD [])
  ∧ ((listContainersFromMaps advertisements images videos)[i]?).map Container.images =
      (videos[i]?).map (fun p => (alistGet images p.1).getD [])
  ∧ ((listContainersFromMaps advertisements images videos)[i]?).map Container.videos =
      (videos[i]?).map Prod.snd
  ∧ c.id ≠ k := by
  refine ⟨?_, ?_, ?_, ?_, ?_⟩
  · simp only [listContainersFromMaps, List.map_map]
    rfl
  · simp only [listContainersFromMaps, List.getElem?_map, Option.map_map]
    rfl
  · simp only [listContainersFromMaps, List.getElem?_map, Option.map_map]
    rfl
  · simp only [listContainersFromMaps, List.getElem?_map, Option.map_map]
    rfl
  · simp only [listContainersFromMaps] at hc
    obtain ⟨p, hp, rfl⟩ := List.mem_map.1 hc
    intro h
    have h2 : p.1 = k := h
    exact hk (h2 ▸ List.mem_map_of_mem Prod.fst hp)

/-- Sample advertisement used by concrete instances below. -/
def sampleAd : Advertisement := ⟨9, "A", "http://x"⟩

/-- Sample video used by concrete instances below. -/
def sampleVideo : Video := ⟨[], "d", "", 100, "p", "t", VideoType.Clip⟩

/-- Sample advertisement map: ads for container 5 only. -/
def sampleAdMap : AdvertisementMap := [(5, [sampleAd])]

/-- Sample video map: containers 5 and 7. -/
def sampleVideoMap : VideoMap := [(5, [sampleVideo]), (7, [])]

/-- Closed instance of the catalog-assembly theorem: video map with ids 5
and 7, advertisements only for 5, no images at all. -/
theorem assemble_all_structure_witness :
    (listContainersFromMaps sampleAdMap [] sampleVideoMap).map Container.id =
      sampleVideoMap.map Prod.fst
  ∧ ((listContainersFromMaps sampleAdMap [] sampleVideoMap)[1]?).map Container.ads =
      (sampleVideoMap[1]?).map (fun p => (alistGet sampleAdMap p.1).getD [])
  ∧ ((listContainersFromMaps sampleAdMap [] sampleVideoMap)[1]?).map Container.images =
      (sampleVideoMap[1]?).map (fun p => (alistGet ([] : ImageMap) p.1).getD [])
  ∧ ((listContainersFromMaps sampleAdMap [] sampleVideoMap)[1]?).map Container.videos =
      (sampleVideoMap[1]?).map Prod.snd
  ∧ (build_container sampleAdMap [] 5 [sampleVideo]).id ≠ 9 :=
  assemble_all_structure sampleAdMap [] sampleVideoMap 1 9
    (build_container sampleAdMap [] 5 [sampleVideo]) (by decide) (by decide)

/-! ## Service layer over explicit upstreams (src/service, src/repository)

The repository layer (each call already wrapped in the client's retry
logic) is modelled by explicit response functions: each field gives the
Result the corresponding repository call returns for a request, so
upstream responses are deterministic functions of the request.  Service
functions also count the upstream fetches they perform, so that caching
claims can be read off the fetch counts. -/

/-- Deterministic upstream responses, one field per repository endpoint
used by ContainerService::get_container. -/
structure Upstreams where
  listAdvertisementsByContainer : Nat → Result (List AdvertisementDto)
  listImagesByContainer : Nat → Result (List ImageDto)
  listVideosByContainer : Nat → Result (List VideoDto)
  listAssetReferences : Nat → Result (List AssetReferenceDto)

/-- Mapping a panicking conversion over a collected iterator: the first
element whose conversion panics makes the whole collect panic (none). -/
def mapAll {α β : Type} (f : α → Option β) : List α → Option (List β)
  | [] => some []
  | a :: rest =>
    match f a with
    | some b => (mapAll f rest).map (fun bs => b :: bs)
    | none => none

/-- Embedding of AdvertisementService::list_advertisements_by_container
(src/service/advertisement.rs lines 115-133): one repository fetch, then
Advertisement::from over each element. -/
def list_advertisements_by_container (u : Upstreams) (container_id : Nat) :
    PResult (List Advertisement) × Nat :=
  match u.listAdvertisementsByContainer container_id with
  | .error e => (.err e, 1)
  | .ok dtos =>
    match mapAll Advertisement.fromDto dtos with
    | some ads => (.ok ads, 1)
    | none => (.panicked, 1)

/-- Embedding of ImageService::list_images_by_container
(src/service/image.rs): one repository fetch, then Image::from over each
element. -/
def list_images_by_container (u : Upstreams) (container_id : Nat) :
    PResult (List Image) × Nat :=
  match u.listImagesByContainer container_id with
  | .error e => (.err e, 1)
  | .ok dtos =>
    match mapAll Image.fromDto dtos with
    | some images => (.ok images, 1)
    | none => (.panicked, 1)

/-- Embedding of VideoService::list_asset_references (src/service/video.rs
lines 437-449): one repository fetch, then AssetReference::from over each
element. -/
def list_asset_references (u : Upstreams) (video_id : Nat) :
    PResult (List AssetReference) × Nat :=
  match u.listAssetReferences video_id with
  | .error e => (.err e, 1)
  | .ok dtos =>
    match mapAll AssetReference.fromDto dtos with
    | some assets => (.ok assets, 1)
    | none => (.panicked, 1)

/-- Embedding of VideoService::map_video_dto_to_video (src/service/video.rs
lines 577-583): parse the video id (unwrap panics on a bad id, before any
fetch), fetch the asset references (the question-mark operator propagates
the error), then build the video from the fully-set builder. -/
def map_video_dto_to_video (u : Upstreams) (dto : VideoDto) : PResult Video × Nat :=
  match parseU32 dto.id with
  | none => (.panicked, 0)
  | some video_id =>
    match list_asset_references u video_id with
    | (.ok assets, n) =>
      match (VideoBuilder.fromDto dto).map (fun vb => (vb.setAssets assets).build) with
      | some (some video) => (.ok video, n)
      | _ => (.panicked, n)
    | (.err e, n) => (.err e, n)
    | (.panicked, n) => (.panicked, n)

/-- Sequential model of future::try_join_all over the per-video mapping
(src/service/video.rs lines 510-518): the joined future resolves to the
list of videos, or to the first error in list order; fetches after a
failing element are not performed in this sequentialization. -/
def try_join_all_videos (u : Upstreams) : List VideoDto → PResult (List Video) × Nat
  | [] => (.ok [], 0)
  | dto :: rest =>
    match map_video_dto_to_video u dto with
    | (.ok video, n) =>
      match try_join_all_videos u rest with
      | (.ok videos, m) => (.ok (video :: videos), n + m)
      | (.err e, m) => (.err e, n + m)
      | (.panicked, m) => (.panicked, n + m)
    | (.err e, n) => (.err e, n)
    | (.panicked, n) => (.panicked, n)

/-- Embedding of VideoService::list_videos_by_container
(src/service/video.rs lines 507-521): one repository fetch for the video
list, then try_join_all of the per-video mappings followed by .unwrap(),
so an Err from the join panics instead of being returned. -/
def list_videos_by_container (u : Upstreams) (container_id : Nat) :
    PResult (List Video) × Nat :=
  match u.listVideosByContainer container_id with
  | .error e => (.err e, 1)
  | .ok dtos =>
    match try_join_all_videos u dtos with
    | (.ok videos, n) => (.ok videos, n + 1)
    | (.err _, n) => (.panicked, n + 1)
    | (.panicked, n) => (.panicked, n + 1)

/-- Embedding of ContainerService::get_container (src/service/container.rs
lines 149-171): the three by-container fetches in order, each propagated
with the question-mark operator, then Container::from. -/
def get_container (u : Upstreams) (container_id : Nat) : PResult Container × Nat :=
  match list_advertisements_by_container u container_id with
  | (.ok advertisements, n1) =>
    match list_images_by_container u container_id with
    | (.ok images, n2) =>
      match list_videos_by_container u container_id with
      | (.ok videos, n3) =>
        (.ok (Container.fromParts container_id advertisements images videos),
          n1 + n2 + n3)
      | (.err e, n3) => (.err e, n1 + n2 + n3)
      | (.panicked, n3) => (.panicked, n1 + n2 + n3)
    | (.err e, n2) => (.err e, n1 + n2)
    | (.panicked, n2) => (.panicked, n1 + n2)
  | (.err e, n1) => (.err e, n1)
  | (.panicked, n1) => (.panicked, n1)

/-- Two successive calls of get_container: ContainerService holds no
state, so the second call evaluates the same function again; the results
are paired and the upstream fetch counts add. -/
def get_container_twice (u : Upstreams) (container_id : Nat) :
    (PResult Container × PResult Container) × Nat :=
  (((get_container u container_id).1, (get_container u container_id).1),
    (get_container u container_id).2 + (get_container u container_id).2)

theorem list_advertisements_by_container_count (u : Upstreams) (container_id : Nat) :
    (list_advertisements_by_container u container_id).2 = 1 := by
  unfold list_advertisements_by_container
  split
  · rfl
  · split <;> rfl

/-- C1 amended: there is no cache in the code, so two successive calls of
get_container return identical values but each performs the full set of
upstream fetches: the combined fetch count is double that of one call,
and one call always makes at least one fetch. -/
theorem get_container_twice_no_cache (u : Upstreams) (container_id : Nat) :
    (get_container_twice u container_id).1.1 = (get_container_twice u container_id).1.2
  ∧ (get_container_twice u container_id).2 = 2 * (get_container u container_id).2
  ∧ 1 ≤ (get_container u container_id).2 := by
  refine ⟨rfl, ?_, ?_⟩
  · show (get_container u container_id).2 + (get_container u container_id).2 =
      2 * (get_container u container_id).2
    omega
  · rcases hA : list_advertisements_by_container u container_id with ⟨rA, nA⟩
    have hnA : nA = 1 := by
      have h := list_advertisements_by_container_count u container_id
      rw [hA] at h
      exact h
    unfold get_container
    rw [hA]
    subst hnA
    cases rA with
    | err e => exact le_refl 1
    | panicked => exact le_refl 1
    | ok advertisements =>
      rcases hI : list_images_by_container u container_id with ⟨rI, nI⟩
      cases rI with
      | err e =>
        show 1 ≤ 1 + nI
        omega
      | panicked =>
        show 1 ≤ 1 + nI
        omega
      | ok images =>
        rcases hV : list_videos_by_container u container_id with ⟨rV, nV⟩
        cases rV with
        | err e =>
          show 1 ≤ 1 + nI + nV
          omega
        | panicked =>
          show 1 ≤ 1 + nI + nV
          omega
        | ok videos =>
          show 1 ≤ 1 + nI + nV
          omega

/-- Concrete upstreams for the cache counterexample, matching the
end-to-end scenario of the specification: container 5 has one
advertisement, no images, and one video with no asset references. -/
def cacheUpstreams : Upstreams :=
  ⟨fun cid => if cid = 5 then Except.ok [⟨"5", "9", "A", "http://x"⟩] else Except.ok [],
   fun _ => Except.ok [],
   fun cid =>
     if cid = 5 then Except.ok [⟨"5", "d", "", "100", "p", "t", VideoType.Clip⟩]
     else Except.ok [],
   fun _ => Except.ok []⟩

/-- C1 counterexample: with the concrete upstreams, one get_container call
performs 4 upstream fetches (ads, images, videos, one asset-reference
list), so two successive calls perform 8, not the 4 that a second-call
cache hit would give; the code re-fetches because it has no cache. -/
theorem get_container_twice_refetches :
    (get_container_twice cacheUpstreams 5).2 = 8
  ∧ (get_container cacheUpstreams 5).2 = 4
  ∧ (get_container_twice cacheUpstreams 5).2 ≠ (get_container cacheUpstreams 5).2 := by
  refine ⟨by decide, by decide, by decide⟩

/-- Concrete upstreams for the error-propagation counterexample: the
video list for container 7 holds one video, and every asset-reference
fetch fails with a Transient error (as after exhausted retries). -/
def assetFailureUpstreams : Upstreams :=
  ⟨fun _ => Except.ok [],
   fun _ => Except.ok [],
   fun cid =>
     if cid = 7 then Except.ok [⟨"7", "d", "", "100", "p", "t", VideoType.Clip⟩]
     else Except.ok [],
   fun _ => Except.error ⟨ErrorKind.Transient, "Internal server error"⟩⟩

/-- C2 counterexample: when the per-video asset-reference fetch fails,
the operation panics (Result::unwrap on the joined per-video futures in
VideoService) instead of returning that error as its result. -/
theorem asset_failure_panics :
    (get_container assetFailureUpstreams 7).1 = PResult.panicked
  ∧ (list_videos_by_container assetFailureUpstreams 7).1 = PResult.panicked :=
  ⟨by decide, by decide⟩

/-- C2 amended: an error from the advertisements, images, or videos list
fetch is returned as the Result of get_container (the first error aborts
the assembly, no partial Container), but an error from a per-video
asset-reference fetch does not propagate as a Result: the unwrap after
try_join_all panics. -/
theorem assembly_error_propagation (u : Upstreams) (container_id video_id : Nat)
    (e : Error) (dto : VideoDto) :
    ((list_advertisements_by_container u container_id).1 = PResult.err e →
      (get_container u container_id).1 = PResult.err e)
  ∧ (∀ advertisements,
      (list_advertisements_by_container u container_id).1 = PResult.ok advertisements →
      (list_images_by_container u container_id).1 = PResult.err e →
      (get_container u container_id).1 = PResult.err e)
  ∧ (∀ advertisements images,
      (list_advertisements_by_container u container_id).1 = PResult.ok advertisements →
      (list_images_by_container u container_id).1 = PResult.ok images →
      (list_videos_by_container u container_id).1 = PResult.err e →
      (get_container u container_id).1 = PResult.err e)
  ∧ (u.listVideosByContainer container_id = Except.ok [dto] →
      parseU32 dto.id = some video_id →
      (list_asset_references u video_id).1 = PResult.err e →
      (list_videos_by_container u container_id).1 = PResult.panicked) := by
  refine ⟨?_, ?_, ?_, ?_⟩
  · intro h
    rcases hA : list_advertisements_by_container u container_id with ⟨rA, nA⟩
    rw [hA] at h
    have h2 : rA = PResult.err e := h
    subst h2
    unfold get_container
    rw [hA]
  · intro advertisements hA1 hI1
    rcases hA : list_advertisements_by_container u container_id with ⟨rA, nA⟩
    rw [hA] at hA1
    have h2 : rA = PResult.ok advertisements := hA1
    subst h2
    rcases hI : list_images_by_container u container_id with ⟨rI, nI⟩
    rw [hI] at hI1
    have h3 : rI = PResult.err e := hI1
    subst h3
    unfold get_container
    rw [hA, hI]
  · intro advertisements images hA1 hI1 hV1
    rcases hA : list_advertisements_by_container u container_id with ⟨rA, nA⟩
    rw [hA] at hA1
    have h2 : rA = PResult.ok advertisements := hA1
    subst h2
    rcases hI : list_images_by_container u container_id with ⟨rI, nI⟩
    rw [hI] at hI1
    have h3 : rI = PResult.ok images := hI1
    subst h3
    rcases hV : list_videos_by_container u container_id with ⟨rV, nV⟩
    rw [hV] at hV1
    have h4 : rV = PResult.err e := hV1
    subst h4
    unfold get_container
    rw [hA, hI, hV]
  · intro hV hparse hAssets
    rcases hAr : list_asset_references u video_id with ⟨rAs, nAs⟩
    rw [hAr] at hAssets
    have h4 : rAs = PResult.err e := hAssets
    subst h4
    unfold list_videos_by_container
    rw [hV]
    simp only [try_join_all_videos, map_video_dto_to_video, hparse, hAr]

/-- Closed instance of the amended propagation theorem at the concrete
asset-failure upstreams. -/
theorem assembly_error_propagation_witness :
    ((list_advertisements_by_container assetFailureUpstreams 7).1 =
        PResult.err ⟨ErrorKind.Transient, "Internal server error"⟩ →
      (get_container assetFailureUpstreams 7).1 =
        PResult.err ⟨ErrorKind.Transient, "Internal server error"⟩)
  ∧ (∀ advertisements,
      (list_advertisements_by_container assetFailureUpstreams 7).1 =
        PResult.ok advertisements →
      (list_images_by_container assetFailureUpstreams 7).1 =
        PResult.err ⟨ErrorKind.Transient, "Internal server error"⟩ →
      (get_container assetFailureUpstreams 7).1 =
        PResult.err ⟨ErrorKind.Transient, "Internal server error"⟩)
  ∧ (∀ advertisements images,
      (list_advertisements_by_container assetFailureUpstreams 7).1 =
        PResult.ok advertisements →
      (list_images_by_container assetFailureUpstreams 7).1 = PResult.ok images →
      (list_videos_by_container assetFailureUpstreams 7).1 =
        PResult.err ⟨ErrorKind.Transient, "Internal server error"⟩ →
      (get_container assetFailureUpstreams 7).1 =
        PResult.err ⟨ErrorKind.Transient, "Internal server error"⟩)
  ∧ (assetFailureUpstreams.listVideosByContainer 7 =
        Except.ok [⟨"7", "d", "", "100", "p", "t", VideoType.Clip⟩] →
      parseU32 (VideoDto.mk "7" "d" "" "100" "p" "t" VideoType.Clip).id = some 100 →
      (list_asset_references assetFailureUpstreams 100).1 =
        PResult.err ⟨ErrorKind.Transient, "Internal server error"⟩ →
      (list_videos_by_container assetFailureUpstreams 7).1 = PResult.panicked) :=
  assembly_error_propagation assetFailureUpstreams 7 100
    ⟨ErrorKind.Transient, "Internal server error"⟩ ⟨"7", "d", "", "100", "p", "t", VideoType.Clip⟩

end RocketContainer
